import Mathlib

/-!
Shallow embedding of the `citro3d` safe-binding layer
(`src/citro3d/src/lib.rs`): the graphics context (`Instance`), its frame
bracket, the buffer/attribute descriptor binding, the draw dispatcher with
the linear-memory residency check, the lazily-initialized texture-environment
stage cache, and context construction/teardown.

The driver (`citro3d_sys`) is modelled as an event trace (`DriverCall`) plus
the small state it holds (the currently bound buffer/attribute descriptors).
Rust panics are modelled by `StepResult.panic` (carrying the state and trace
at the point of termination) or by `Option` where convenient.

Modules of this repository that are not available (`util.rs`, `texenv.rs`,
`buffer.rs`, `error.rs`) are modelled from the spec; each such definition
says so in its doc comment.
-/

namespace Citro3d

/-- Modelled from the spec: the linear-memory allocator's designated
GPU-visible heap address range (`src/citro3d/src/util.rs` is not available);
the spec describes the residency check as "an address-range membership test
against the linear pool". -/
structure MemRegion where
  base : Nat
  size : Nat
deriving DecidableEq, Repr

/-- Modelled from the spec: `util::is_linear_ptr` (`util.rs` is not
available) — the membership predicate `is_in_linear_region(pointer)` of the
linear pool. -/
def is_linear_ptr (pool : MemRegion) (p : Nat) : Bool :=
  decide (pool.base ≤ p) && decide (p < pool.base + pool.size)

/-- Modelled from the spec: the buffer descriptor (`buffer::Info`,
`buffer.rs` is not available) — "vertex-buffer base pointer + stride +
sub-buffer count + attribute-permutation mask", a value type. -/
structure BufInfo where
  base_ptr : Nat
  stride : Nat
  attr_count : Nat
  permutation : Nat
deriving DecidableEq, Repr

/-- Modelled from the spec: one attribute entry of the attribute descriptor
("per-attribute type + component-count"). -/
structure AttrEntry where
  fmt : Nat
  count : Nat
deriving DecidableEq, Repr

/-- Modelled from the spec: the attribute descriptor (`attrib::Info`,
`attrib.rs` is not available) — a value-type list of attribute entries. -/
structure AttrInfo where
  attrs : List AttrEntry
deriving DecidableEq, Repr

/-- Modelled from the spec: `buffer::Slice` (`buffer.rs` is not available).
The spec: `draw_arrays` "sets buffer info from the given slice descriptor,
then issues a non-indexed draw over `vertex_range`" with "starting index
(assumed 0 in this design unless extended)" and the vertex count; so a slice
carries its buffer descriptor and its vertex count, and its starting index
is 0. The count is carried as the driver-sized integer (`libc::c_int`). -/
structure Slice where
  info : BufInfo
  len : Int
deriving DecidableEq, Repr

/-- Modelled from the spec: `Slice::index` — the slice's starting index,
0 in this design. -/
def Slice.index (_ : Slice) : Int := 0

/-- A slice of caller memory: its address plus its elements
(the elements' values never matter to this layer, only the address and the
length do). -/
structure MemSlice where
  ptr : Nat
  data : List Nat
deriving DecidableEq, Repr

/-- `IndexType<'a>`: a 16-bit or 8-bit index slice (`lib.rs` lines 287-310). -/
inductive IndexType where
  | U16 (v : MemSlice)
  | U8 (v : MemSlice)
deriving DecidableEq, Repr

/-- `IndexType::len` (`lib.rs` lines 292-297). -/
def IndexType.len : IndexType → Nat
  | .U16 a => a.data.length
  | .U8 a => a.data.length

/-- The `v.as_ptr()` match in `draw_elements` (`lib.rs` lines 191-194). -/
def IndexType.as_ptr : IndexType → Nat
  | .U16 v => v.ptr
  | .U8 v => v.ptr

/-- Modelled from the spec: the driver's element-size flag for 8-bit indices
(`citro3d_sys::C3D_UNSIGNED_BYTE`, an external driver constant). -/
def C3D_UNSIGNED_BYTE : Nat := 0

/-- Modelled from the spec: the driver's element-size flag for 16-bit indices
(`citro3d_sys::C3D_UNSIGNED_SHORT`, an external driver constant). -/
def C3D_UNSIGNED_SHORT : Nat := 1

/-- Modelled from the spec: the driver's frame-begin synchronization flag
(`citro3d_sys::C3D_FRAME_SYNCDRAW`, an external driver constant). -/
def C3D_FRAME_SYNCDRAW : Nat := 2

/-- Modelled from the spec: the driver's default command-buffer size
(`citro3d_sys::C3D_DEFAULT_CMDBUF_SIZE`, an external driver constant);
the spec: "Default size used if omitted". -/
def C3D_DEFAULT_CMDBUF_SIZE : Nat := 0x40000

/-- Rust's `usize as i32` cast (wrapping), as performed on
`indices.len()` in `draw_elements` (`lib.rs` line 201). -/
def usize_as_i32 (n : Nat) : Int :=
  if n % 2 ^ 32 < 2 ^ 31 then Int.ofNat (n % 2 ^ 32)
  else Int.ofNat (n % 2 ^ 32) - 2 ^ 32

/-- One call into the external GPU driver (`citro3d_sys`), per the boundary
interface list of the spec (§6). -/
inductive DriverCall where
  | init (size : Nat)
  | fini
  | frameBegin (flags : Nat)
  | frameEnd (flags : Nat)
  | frameDrawOn (target : Nat)
  | setBufInfo (info : BufInfo)
  | setAttrInfo (info : AttrInfo)
  | bindProgram (program : Nat)
  | drawArrays (primitive : Nat) (first : Int) (count : Int)
  | drawElements (primitive : Nat) (count : Int) (sizeFlag : Nat) (ptr : Nat)
deriving DecidableEq, Repr

def DriverCall.isFrameBegin : DriverCall → Bool
  | .frameBegin _ => true
  | _ => false

def DriverCall.isFrameEnd : DriverCall → Bool
  | .frameEnd _ => true
  | _ => false

def DriverCall.isFini : DriverCall → Bool
  | .fini => true
  | _ => false

def DriverCall.isDrawElements : DriverCall → Bool
  | .drawElements _ _ _ _ => true
  | _ => false

/-- Modelled from the spec: the texture-environment stage identifier
(`texenv::Stage`, `texenv.rs` is not available) — "a small integer index in
[0, stage_count)". The wrapped index is a plain integer; validity is
established only by `Stage.new`. -/
structure Stage where
  val : Nat
deriving DecidableEq, Repr

/-- `texenv::TEXENV_COUNT`: the hardware stage count. It is pinned to 6 by
the source (`lib.rs` lines 76-84 construct exactly six cells; "thank
goodness there's only six of them!"). -/
def TEXENV_COUNT : Nat := 6

/-- Modelled from the spec: `texenv::Stage::new` (`texenv.rs` is not
available) — "stage index validity is checked once, at the point a stage
identifier is constructed (range check against the fixed stage count)";
out-of-range indices are rejected with a recoverable error (here `none`). -/
def Stage.new (index : Nat) : Option Stage :=
  if index < TEXENV_COUNT then some ⟨index⟩ else none

/-- Modelled from the spec: a texture-environment stage's configuration
(`texenv::TexEnv`, `texenv.rs` is not available) — "combiner source
selection, combiner function, enabled channel mask". -/
structure TexEnv where
  stage : Nat
  source : Nat
  combiner : Nat
  channelMask : Nat
deriving DecidableEq, Repr

/-- Modelled from the spec: `TexEnv::new` — initialization "to a
known-neutral combiner configuration" for the given stage. -/
def TexEnv.new (s : Stage) : TexEnv :=
  { stage := s.val, source := 0, combiner := 0, channelMask := 0 }

/-- The `Instance` struct (`lib.rs` lines 47-49): a fixed-size array of six
lazily-initialized texture-environment cells (`OnceCell<TexEnv>` becomes
`Option TexEnv`). -/
structure Instance where
  texenvs : List (Option TexEnv)
deriving DecidableEq, Repr

/-- Modelled from the spec: the recoverable error kind (`error::Error`,
`error.rs` is not available) — the spec's taxonomy names initialization
failure and invalid render target as the recoverable conditions. -/
inductive Error where
  | FailedToInitialize
  | InvalidRenderTarget
deriving DecidableEq, Repr

/-- The fresh instance built by `Instance::with_cmdbuf_size` on success
(`lib.rs` lines 75-85): six uninitialized cells. -/
def freshInstance : Instance :=
  { texenvs := List.replicate TEXENV_COUNT none }

/-- `Instance::with_cmdbuf_size` (`lib.rs` lines 73-89). `initOk` is the
boolean returned by the external `C3D_Init(size)` call; the call itself is
the emitted event. On success the instance with six fresh cells is
returned; otherwise `Error.FailedToInitialize`. -/
def with_cmdbuf_size (initOk : Bool) (size : Nat) :
    Except Error Instance × List DriverCall :=
  if initOk then (Except.ok freshInstance, [DriverCall.init size])
  else (Except.error Error.FailedToInitialize, [DriverCall.init size])

/-- `Instance::new` (`lib.rs` lines 63-65): `with_cmdbuf_size` at the
driver's default command-buffer size. -/
def Instance.new (initOk : Bool) : Except Error Instance × List DriverCall :=
  with_cmdbuf_size initOk C3D_DEFAULT_CMDBUF_SIZE

/-- `Instance::texenv` (`lib.rs` lines 269-275): index the fixed-size cell
array at `stage.0` (a panic — `none` — if out of range), initialize the cell
on first access, and return the cell's object. The returned `Bool` records
whether initialization ran on this call. -/
def Instance.texenv (inst : Instance) (stage : Stage) :
    Option (Instance × TexEnv × Bool) :=
  match inst.texenvs[stage.val]? with
  | none => none
  | some (some te) => some (inst, te, false)
  | some none =>
    let te := TexEnv.new stage
    some ({ texenvs := inst.texenvs.set stage.val (some te) }, te, true)

/-- The state the driver holds for this layer: the currently bound buffer
and attribute descriptors (value copies). -/
structure DriverState where
  bufInfo : Option BufInfo
  attrInfo : Option AttrInfo
deriving DecidableEq, Repr

/-- The driver state right after `C3D_Init`: nothing bound. -/
def freshDriver : DriverState := { bufInfo := none, attrInfo := none }

/-- The whole state of a live context: the Rust `Instance` plus the
driver-held descriptor storage. -/
structure C3DState where
  inst : Instance
  driver : DriverState
deriving DecidableEq, Repr

/-- `Instance::set_buffer_info` (`lib.rs` lines 136-140): `C3D_SetBufInfo`
copies the pointee by value into driver storage. -/
def set_buffer_info (s : C3DState) (info : BufInfo) :
    C3DState × List DriverCall :=
  ({ s with driver := { s.driver with bufInfo := some info } },
   [DriverCall.setBufInfo info])

/-- `Instance::buffer_info` (`lib.rs` lines 129-132): copy the driver-held
descriptor out, if any. -/
def buffer_info (s : C3DState) : Option BufInfo :=
  s.driver.bufInfo

/-- `Instance::set_attr_info` (`lib.rs` lines 152-156). -/
def set_attr_info (s : C3DState) (info : AttrInfo) :
    C3DState × List DriverCall :=
  ({ s with driver := { s.driver with attrInfo := some info } },
   [DriverCall.setAttrInfo info])

/-- `Instance::attr_info` (`lib.rs` lines 145-148). -/
def attr_info (s : C3DState) : Option AttrInfo :=
  s.driver.attrInfo

/-- `Instance::draw_arrays` (`lib.rs` lines 160-171): set the buffer info
from the slice's descriptor, then issue `C3D_DrawArrays(primitive,
vbo_data.index(), vbo_data.len())`. -/
def draw_arrays (s : C3DState) (primitive : Nat) (vbo_data : Slice) :
    C3DState × List DriverCall :=
  let r := set_buffer_info s vbo_data.info
  (r.1, r.2 ++ [DriverCall.drawArrays primitive vbo_data.index vbo_data.len])

/-- The outcome of one instance operation: normal return, or a Rust panic
(fatal termination), each with the state and driver-call trace produced up
to that point. -/
inductive StepResult where
  | ok (s : C3DState) (tr : List DriverCall)
  | panic (s : C3DState) (tr : List DriverCall)
deriving DecidableEq, Repr

def StepResult.state : StepResult → C3DState
  | .ok s _ => s
  | .panic s _ => s

def StepResult.trace : StepResult → List DriverCall
  | .ok _ tr => tr
  | .panic _ tr => tr

def StepResult.isPanic : StepResult → Bool
  | .ok _ _ => false
  | .panic _ _ => true

/-- `Instance::draw_elements` (`lib.rs` lines 183-209): set the buffer info
from the supplied descriptor, take the index slice's pointer, `assert!` that
it lies in linear memory (panic otherwise), then issue
`C3D_DrawElements(primitive, indices.len() as i32, size_flag, elements)`
with the size flag chosen by the index variant. -/
def draw_elements (pool : MemRegion) (s : C3DState) (primitive : Nat)
    (buf : BufInfo) (indices : IndexType) : StepResult :=
  let r := set_buffer_info s buf
  let elements := indices.as_ptr
  if is_linear_ptr pool elements then
    StepResult.ok r.1
      (r.2 ++
        [DriverCall.drawElements primitive (usize_as_i32 indices.len)
          (match indices with
            | .U16 _ => C3D_UNSIGNED_SHORT
            | .U8 _ => C3D_UNSIGNED_BYTE)
          elements])
  else
    StepResult.panic r.1 r.2

/-- `Instance::select_render_target` (`lib.rs` lines 97-104): issue
`C3D_FrameDrawOn(target)`; `targetOk` is the driver's boolean reply, which
decides the recoverable result but changes no state either way. -/
def select_render_target (s : C3DState) (targetOk : Bool) (target : Nat) :
    (C3DState × Except Error Unit) × List DriverCall :=
  ((s, if targetOk then Except.ok () else Except.error Error.InvalidRenderTarget),
   [DriverCall.frameDrawOn target])

/-- `Instance::bind_program` (`lib.rs` lines 212-218): hand the program's
pointers to the driver; no descriptor state changes. -/
def bind_program (s : C3DState) (program : Nat) : C3DState × List DriverCall :=
  (s, [DriverCall.bindProgram program])

/-- One operation a frame body (or any caller holding the instance) can
perform on the context: the target selections, binds, texenv accesses and
draw calls of the public API. -/
inductive Op where
  | selectTarget (targetOk : Bool) (target : Nat)
  | setBufferInfo (info : BufInfo)
  | setAttrInfoOp (info : AttrInfo)
  | bindProgramOp (program : Nat)
  | drawArraysOp (primitive : Nat) (vbo_data : Slice)
  | drawElementsOp (primitive : Nat) (buf : BufInfo) (indices : IndexType)
  | texenvOp (stage : Stage)
deriving DecidableEq, Repr

/-- Run one operation on the context state. -/
def runOp (pool : MemRegion) (s : C3DState) : Op → StepResult
  | .selectTarget targetOk target =>
    StepResult.ok (select_render_target s targetOk target).1.1
      (select_render_target s targetOk target).2
  | .setBufferInfo info =>
    StepResult.ok (set_buffer_info s info).1 (set_buffer_info s info).2
  | .setAttrInfoOp info =>
    StepResult.ok (set_attr_info s info).1 (set_attr_info s info).2
  | .bindProgramOp program =>
    StepResult.ok (bind_program s program).1 (bind_program s program).2
  | .drawArraysOp primitive vbo_data =>
    StepResult.ok (draw_arrays s primitive vbo_data).1
      (draw_arrays s primitive vbo_data).2
  | .drawElementsOp primitive buf indices =>
    draw_elements pool s primitive buf indices
  | .texenvOp stage =>
    match s.inst.texenv stage with
    | some r => StepResult.ok { s with inst := r.1 } []
    | none => StepResult.panic s []

/-- Run a list of operations in order; a panic aborts the rest. -/
def runOps (pool : MemRegion) : C3DState → List Op → StepResult
  | s, [] => StepResult.ok s []
  | s, op :: rest =>
    match runOp pool s op with
    | .ok s1 tr =>
      match runOps pool s1 rest with
      | .ok s2 tr2 => StepResult.ok s2 (tr ++ tr2)
      | .panic s2 tr2 => StepResult.panic s2 (tr ++ tr2)
    | .panic s1 tr => StepResult.panic s1 tr

/-- `Instance::render_frame_with` (`lib.rs` lines 111-124): issue
`C3D_FrameBegin(C3D_FRAME_SYNCDRAW)`, run the body with exclusive access to
the context, then issue `C3D_FrameEnd(0)`. If the body panics the end call
is not reached (the panic propagates). -/
def render_frame_with (pool : MemRegion) (s : C3DState) (ops : List Op) :
    StepResult :=
  match runOps pool s ops with
  | .ok s1 tr =>
    StepResult.ok s1
      ([DriverCall.frameBegin C3D_FRAME_SYNCDRAW] ++ tr ++ [DriverCall.frameEnd 0])
  | .panic s1 tr =>
    StepResult.panic s1 ([DriverCall.frameBegin C3D_FRAME_SYNCDRAW] ++ tr)

/-- Run a list of frames, each a `render_frame_with` body; a panic aborts
the rest. -/
def run_frames (pool : MemRegion) : C3DState → List (List Op) → StepResult
  | s, [] => StepResult.ok s []
  | s, body :: rest =>
    match render_frame_with pool s body with
    | .ok s1 tr =>
      match run_frames pool s1 rest with
      | .ok s2 tr2 => StepResult.ok s2 (tr ++ tr2)
      | .panic s2 tr2 => StepResult.panic s2 (tr ++ tr2)
    | .panic s1 tr => StepResult.panic s1 tr

/-- A whole instance lifetime (`lib.rs` lines 63-89 and 278-285):
construction with a successful driver init, any sequence of frames, then
`Drop`, whose body is exactly one `C3D_Fini` call. `none` when a frame
panics (the lifetime does not end normally). -/
def instance_lifetime (pool : MemRegion) (size : Nat)
    (frames : List (List Op)) : Option (List DriverCall) :=
  match with_cmdbuf_size true size with
  | (Except.ok inst, tr0) =>
    match run_frames pool { inst := inst, driver := freshDriver } frames with
    | .ok _ tr => some (tr0 ++ tr ++ [DriverCall.fini])
    | .panic _ _ => none
  | (Except.error _, _) => none

/-! ## Helper lemmas -/

/-- `usize as i32` is the identity below `2^31` (Rust slices never exceed
`isize::MAX` bytes, so index-slice lengths always lie below `2^31`). -/
theorem usize_as_i32_of_lt (n : Nat) (h : n < 2 ^ 31) :
    usize_as_i32 n = Int.ofNat n := by
  have h32 : n < 2 ^ 32 := lt_trans h (by norm_num)
  unfold usize_as_i32
  rw [Nat.mod_eq_of_lt h32, if_pos h]

/-- No single instance operation emits a frame-begin, frame-end or
finalization driver call. -/
theorem runOp_lifecycle_free (pool : MemRegion) (s : C3DState) (op : Op) :
    ∀ c ∈ (runOp pool s op).trace,
      c.isFrameBegin = false ∧ c.isFrameEnd = false ∧ c.isFini = false := by
  intro c hc
  cases op with
  | selectTarget targetOk target =>
    simp only [runOp, select_render_target, StepResult.trace,
      List.mem_singleton] at hc
    subst hc; exact ⟨rfl, rfl, rfl⟩
  | setBufferInfo info =>
    simp only [runOp, set_buffer_info, StepResult.trace,
      List.mem_singleton] at hc
    subst hc; exact ⟨rfl, rfl, rfl⟩
  | setAttrInfoOp info =>
    simp only [runOp, set_attr_info, StepResult.trace,
      List.mem_singleton] at hc
    subst hc; exact ⟨rfl, rfl, rfl⟩
  | bindProgramOp program =>
    simp only [runOp, bind_program, StepResult.trace,
      List.mem_singleton] at hc
    subst hc; exact ⟨rfl, rfl, rfl⟩
  | drawArraysOp primitive vbo_data =>
    simp only [runOp, draw_arrays, set_buffer_info, StepResult.trace,
      List.cons_append, List.nil_append, List.mem_cons,
      List.not_mem_nil, or_false] at hc
    rcases hc with hc | hc <;> subst hc <;> exact ⟨rfl, rfl, rfl⟩
  | drawElementsOp primitive buf indices =>
    simp only [runOp, draw_elements, set_buffer_info] at hc
    split at hc <;>
      simp only [StepResult.trace, List.cons_append, List.nil_append,
        List.mem_cons, List.not_mem_nil, or_false, List.mem_singleton] at hc
    · rcases hc with hc | hc <;> subst hc <;> exact ⟨rfl, rfl, rfl⟩
    · subst hc; exact ⟨rfl, rfl, rfl⟩
  | texenvOp stage =>
    simp only [runOp] at hc
    split at hc <;> simp [StepResult.trace] at hc

/-- No body operation sequence emits a frame-begin, frame-end or
finalization driver call. -/
theorem runOps_lifecycle_free (pool : MemRegion) (s : C3DState) (ops : List Op) :
    ∀ c ∈ (runOps pool s ops).trace,
      c.isFrameBegin = false ∧ c.isFrameEnd = false ∧ c.isFini = false := by
  induction ops generalizing s with
  | nil => simp [runOps, StepResult.trace]
  | cons op rest ih =>
    intro c hc
    simp only [runOps] at hc
    split at hc
    next s1 tr hop =>
      split at hc
      next s2 tr2 hrest =>
        simp only [StepResult.trace, List.mem_append] at hc
        rcases hc with hc | hc
        · exact runOp_lifecycle_free pool s op c (by rw [hop]; exact hc)
        · exact ih s1 c (by rw [hrest]; exact hc)
      next s2 tr2 hrest =>
        simp only [StepResult.trace, List.mem_append] at hc
        rcases hc with hc | hc
        · exact runOp_lifecycle_free pool s op c (by rw [hop]; exact hc)
        · exact ih s1 c (by rw [hrest]; exact hc)
    next s1 tr hop =>
      simp only [StepResult.trace] at hc
      exact runOp_lifecycle_free pool s op c (by rw [hop]; exact hc)

/-- A frame bracket never emits the finalization call. -/
theorem render_frame_fini_free (pool : MemRegion) (s : C3DState) (ops : List Op) :
    ∀ c ∈ (render_frame_with pool s ops).trace, c.isFini = false := by
  intro c hc
  simp only [render_frame_with] at hc
  split at hc
  next s1 tr hops =>
    simp only [StepResult.trace, List.append_assoc, List.mem_append,
      List.mem_singleton] at hc
    rcases hc with hc | hc | hc
    · subst hc; rfl
    · exact (runOps_lifecycle_free pool s ops c (by rw [hops]; exact hc)).2.2
    · subst hc; rfl
  next s1 tr hops =>
    simp only [StepResult.trace, List.mem_append, List.mem_singleton] at hc
    rcases hc with hc | hc
    · subst hc; rfl
    · exact (runOps_lifecycle_free pool s ops c (by rw [hops]; exact hc)).2.2

/-- A sequence of frames never emits the finalization call. -/
theorem run_frames_fini_free (pool : MemRegion) (s : C3DState)
    (frames : List (List Op)) :
    ∀ c ∈ (run_frames pool s frames).trace, c.isFini = false := by
  induction frames generalizing s with
  | nil => simp [run_frames, StepResult.trace]
  | cons body rest ih =>
    intro c hc
    simp only [run_frames] at hc
    split at hc
    next s1 tr hb =>
      split at hc
      next s2 tr2 hrest =>
        simp only [StepResult.trace, List.mem_append] at hc
        rcases hc with hc | hc
        · exact render_frame_fini_free pool s body c (by rw [hb]; exact hc)
        · exact ih s1 c (by rw [hrest]; exact hc)
      next s2 tr2 hrest =>
        simp only [StepResult.trace, List.mem_append] at hc
        rcases hc with hc | hc
        · exact render_frame_fini_free pool s body c (by rw [hb]; exact hc)
        · exact ih s1 c (by rw [hrest]; exact hc)
    next s1 tr hb =>
      simp only [StepResult.trace] at hc
      exact render_frame_fini_free pool s body c (by rw [hb]; exact hc)

/-- The last element of a trace ending in a given call. -/
theorem getLast?_append_last {α : Type} (l : List α) (a : α) :
    (l ++ [a]).getLast? = some a := by
  simp [List.getLast?_append]

/-! ## Claim theorems -/

/-- C1: a `draw_elements` call whose index buffer pointer lies outside the
linear (GPU-visible) region terminates fatally (panic) and never issues the
driver's indexed-draw call; a call whose pointer lies inside the region does
not terminate at the residency check and issues the indexed draw. -/
theorem draw_elements_residency_check (pool : MemRegion) (s : C3DState)
    (primitive : Nat) (buf : BufInfo) (indices : IndexType) :
    (is_linear_ptr pool indices.as_ptr = false →
      (draw_elements pool s primitive buf indices).isPanic = true ∧
      (draw_elements pool s primitive buf indices).trace.countP
        DriverCall.isDrawElements = 0) ∧
    (is_linear_ptr pool indices.as_ptr = true →
      (draw_elements pool s primitive buf indices).isPanic = false ∧
      (draw_elements pool s primitive buf indices).trace.countP
        DriverCall.isDrawElements = 1) := by
  constructor <;> intro h <;>
    simp [draw_elements, set_buffer_info, h, StepResult.isPanic,
      StepResult.trace, List.countP_cons, List.countP_nil,
      DriverCall.isDrawElements]

/-- C1 witness: with linear pool `[256, 512)`, a draw with indices at
address 16 panics without issuing the indexed draw, and a draw with indices
at address 300 succeeds and issues it. -/
theorem draw_elements_residency_check_witness :
    ((draw_elements ⟨256, 256⟩ ⟨freshInstance, freshDriver⟩ 0 ⟨0, 24, 2, 16⟩
        (IndexType.U8 ⟨16, [0, 1, 2]⟩)).isPanic = true ∧
      (draw_elements ⟨256, 256⟩ ⟨freshInstance, freshDriver⟩ 0 ⟨0, 24, 2, 16⟩
        (IndexType.U8 ⟨16, [0, 1, 2]⟩)).trace.countP
          DriverCall.isDrawElements = 0) ∧
    ((draw_elements ⟨256, 256⟩ ⟨freshInstance, freshDriver⟩ 0 ⟨0, 24, 2, 16⟩
        (IndexType.U8 ⟨300, [0, 1, 2]⟩)).isPanic = false ∧
      (draw_elements ⟨256, 256⟩ ⟨freshInstance, freshDriver⟩ 0 ⟨0, 24, 2, 16⟩
        (IndexType.U8 ⟨300, [0, 1, 2]⟩)).trace.countP
          DriverCall.isDrawElements = 1) :=
  ⟨(draw_elements_residency_check ⟨256, 256⟩ ⟨freshInstance, freshDriver⟩ 0
      ⟨0, 24, 2, 16⟩ (IndexType.U8 ⟨16, [0, 1, 2]⟩)).1 (by decide),
   (draw_elements_residency_check ⟨256, 256⟩ ⟨freshInstance, freshDriver⟩ 0
      ⟨0, 24, 2, 16⟩ (IndexType.U8 ⟨300, [0, 1, 2]⟩)).2 (by decide)⟩

/-- C4: `draw_arrays` first copy-binds the slice's buffer descriptor into
driver state, then issues the array draw with the given primitive kind,
starting index 0, and the slice's vertex count. -/
theorem draw_arrays_dispatch (s : C3DState) (primitive : Nat)
    (vbo_data : Slice) :
    draw_arrays s primitive vbo_data =
      ({ inst := s.inst,
         driver := { bufInfo := some vbo_data.info,
                     attrInfo := s.driver.attrInfo } },
       [DriverCall.setBufInfo vbo_data.info,
        DriverCall.drawArrays primitive 0 vbo_data.len]) := rfl

/-- C5: context construction returns the freshly initialized context (six
uninitialized texenv cells, nothing else) exactly when the driver's
`C3D_Init` succeeds, and otherwise returns the recoverable error
`FailedToInitialize` carrying no state; `Instance::new` uses the driver's
default command-buffer size. -/
theorem with_cmdbuf_size_spec :
    (∀ size : Nat, with_cmdbuf_size true size =
      (Except.ok freshInstance, [DriverCall.init size])) ∧
    (∀ size : Nat, with_cmdbuf_size false size =
      (Except.error Error.FailedToInitialize, [DriverCall.init size])) ∧
    ∀ initOk : Bool, Instance.new initOk =
      with_cmdbuf_size initOk C3D_DEFAULT_CMDBUF_SIZE :=
  ⟨fun _ => rfl, fun _ => rfl, fun _ => rfl⟩

/-- C6: a `draw_elements` call that passes the residency check first
copy-binds the supplied descriptor, then issues the indexed draw with
element count equal to the index sequence's length and the element-size
flag selected by the variant (`C3D_UNSIGNED_SHORT` for 16-bit indices,
`C3D_UNSIGNED_BYTE` for 8-bit). The length bound encodes Rust's slice-size
invariant (a slice spans at most `isize::MAX` bytes), under which the
`usize as i32` cast is exact. -/
theorem draw_elements_dispatch (pool : MemRegion) (s : C3DState)
    (primitive : Nat) (buf : BufInfo) (indices : IndexType)
    (hres : is_linear_ptr pool indices.as_ptr = true)
    (hlen : indices.len < 2 ^ 31) :
    draw_elements pool s primitive buf indices =
      StepResult.ok
        { inst := s.inst,
          driver := { bufInfo := some buf, attrInfo := s.driver.attrInfo } }
        [DriverCall.setBufInfo buf,
         DriverCall.drawElements primitive (Int.ofNat indices.len)
           (match indices with
             | .U16 _ => C3D_UNSIGNED_SHORT
             | .U8 _ => C3D_UNSIGNED_BYTE)
           indices.as_ptr] := by
  simp [draw_elements, set_buffer_info, hres, usize_as_i32_of_lt _ hlen]

/-- C6 witness: a 16-bit index slice of length 3 at linear address 300
draws 3 elements with the `C3D_UNSIGNED_SHORT` flag. -/
theorem draw_elements_dispatch_witness :
    draw_elements ⟨256, 256⟩ ⟨freshInstance, freshDriver⟩ 4 ⟨0, 24, 2, 16⟩
        (IndexType.U16 ⟨300, [0, 1, 2]⟩) =
      StepResult.ok
        { inst := freshInstance,
          driver := { bufInfo := some ⟨0, 24, 2, 16⟩, attrInfo := none } }
        [DriverCall.setBufInfo ⟨0, 24, 2, 16⟩,
         DriverCall.drawElements 4 (Int.ofNat 3) C3D_UNSIGNED_SHORT 300] :=
  draw_elements_dispatch ⟨256, 256⟩ ⟨freshInstance, freshDriver⟩ 4
    ⟨0, 24, 2, 16⟩ (IndexType.U16 ⟨300, [0, 1, 2]⟩) (by decide) (by decide)

/-- C8: `set_buffer_info` followed immediately by `buffer_info` returns a
descriptor equal by value to the one set, for every buffer layout (so in
particular for the representative one). -/
theorem buffer_info_roundtrip (s : C3DState) (info : BufInfo) :
    buffer_info (set_buffer_info s info).1 = some info := rfl

/-- C10: `draw_elements` copy-binds the supplied descriptor before the
residency check, so on a residency violation it terminates fatally with the
driver's bound buffer-info already changed to the supplied descriptor and
with the `C3D_SetBufInfo` call already issued (and nothing else). -/
theorem draw_elements_binds_before_check (pool : MemRegion) (s : C3DState)
    (primitive : Nat) (buf : BufInfo) (indices : IndexType)
    (hres : is_linear_ptr pool indices.as_ptr = false) :
    draw_elements pool s primitive buf indices =
      StepResult.panic
        { inst := s.inst,
          driver := { bufInfo := some buf, attrInfo := s.driver.attrInfo } }
        [DriverCall.setBufInfo buf] := by
  simp [draw_elements, set_buffer_info, hres]

/-- C10 witness: a non-linear index pointer (address 16, pool `[256, 512)`)
panics with the supplied descriptor already bound. -/
theorem draw_elements_binds_before_check_witness :
    draw_elements ⟨256, 256⟩ ⟨freshInstance, freshDriver⟩ 0 ⟨0, 24, 2, 16⟩
        (IndexType.U8 ⟨16, [0, 1, 2]⟩) =
      StepResult.panic
        { inst := freshInstance,
          driver := { bufInfo := some ⟨0, 24, 2, 16⟩, attrInfo := none } }
        [DriverCall.setBufInfo ⟨0, 24, 2, 16⟩] :=
  draw_elements_binds_before_check ⟨256, 256⟩ ⟨freshInstance, freshDriver⟩ 0
    ⟨0, 24, 2, 16⟩ (IndexType.U8 ⟨16, [0, 1, 2]⟩) (by decide)

/-- C2: when the frame body returns (does not panic), `render_frame_with`
emits exactly one driver frame-begin and exactly one frame-end, and the
frame-end is the last call, regardless of how many target selections,
binds, texenv accesses or draws (zero, one, or many) the body performs. -/
theorem render_frame_bracket_balance (pool : MemRegion) (s : C3DState)
    (ops : List Op)
    (h : (render_frame_with pool s ops).isPanic = false) :
    (render_frame_with pool s ops).trace.countP DriverCall.isFrameBegin = 1 ∧
    (render_frame_with pool s ops).trace.countP DriverCall.isFrameEnd = 1 ∧
    (render_frame_with pool s ops).trace.getLast? =
      some (DriverCall.frameEnd 0) := by
  rcases hops : runOps pool s ops with ⟨s1, tr⟩ | ⟨s1, tr⟩
  · have hfree := runOps_lifecycle_free pool s ops
    rw [hops] at hfree
    simp only [StepResult.trace] at hfree
    have hb : tr.countP DriverCall.isFrameBegin = 0 :=
      List.countP_eq_zero.mpr fun c hc => by simp [(hfree c hc).1]
    have he : tr.countP DriverCall.isFrameEnd = 0 :=
      List.countP_eq_zero.mpr fun c hc => by simp [(hfree c hc).2.1]
    refine ⟨?_, ?_, ?_⟩ <;>
      simp only [render_frame_with, hops, StepResult.trace]
    · simp [List.countP_append, List.countP_cons, hb,
        DriverCall.isFrameBegin]
    · simp [List.countP_append, List.countP_cons, he,
        DriverCall.isFrameEnd]
    · exact getLast?_append_last
        (DriverCall.frameBegin C3D_FRAME_SYNCDRAW :: tr) (DriverCall.frameEnd 0)
  · exfalso
    simp [render_frame_with, hops, StepResult.isPanic] at h

/-- C2 witness: an empty frame body over a concrete state emits exactly the
balanced bracket. -/
theorem render_frame_bracket_balance_witness :
    (render_frame_with ⟨256, 256⟩ ⟨freshInstance, freshDriver⟩ []).isPanic
        = false ∧
      ((render_frame_with ⟨256, 256⟩
          ⟨freshInstance, freshDriver⟩ []).trace.countP
          DriverCall.isFrameBegin = 1 ∧
       (render_frame_with ⟨256, 256⟩
          ⟨freshInstance, freshDriver⟩ []).trace.countP
          DriverCall.isFrameEnd = 1 ∧
       (render_frame_with ⟨256, 256⟩
          ⟨freshInstance, freshDriver⟩ []).trace.getLast? =
         some (DriverCall.frameEnd 0)) :=
  ⟨by decide,
   render_frame_bracket_balance ⟨256, 256⟩ ⟨freshInstance, freshDriver⟩ []
     (by decide)⟩

/-- C9: over a whole instance lifetime that ends normally — construction,
any number of frames (including none), then `Drop` — the driver
finalization call `C3D_Fini` is emitted exactly once and is the last
driver call of the lifetime. -/
theorem drop_fini_once (pool : MemRegion) (size : Nat)
    (frames : List (List Op)) (tr : List DriverCall)
    (h : instance_lifetime pool size frames = some tr) :
    tr.countP DriverCall.isFini = 1 ∧
    tr.getLast? = some DriverCall.fini := by
  simp only [instance_lifetime, with_cmdbuf_size, if_true] at h
  split at h
  next s1 trf hrun =>
    injection h with h
    subst h
    have hfree := run_frames_fini_free pool
      { inst := freshInstance, driver := freshDriver } frames
    rw [hrun] at hfree
    simp only [StepResult.trace] at hfree
    have hf : trf.countP DriverCall.isFini = 0 :=
      List.countP_eq_zero.mpr fun c hc => by simp [hfree c hc]
    constructor
    · simp [List.countP_append, List.countP_cons, hf, DriverCall.isFini]
    · exact getLast?_append_last (DriverCall.init size :: trf) DriverCall.fini
  next s1 trf hrun => cases h

/-- C9 witness: a lifetime with zero frames emits exactly the init call
followed by the finalization call. -/
theorem drop_fini_once_witness :
    instance_lifetime ⟨256, 256⟩ 1 [] =
        some [DriverCall.init 1, DriverCall.fini] ∧
      ([DriverCall.init 1, DriverCall.fini].countP DriverCall.isFini = 1 ∧
       [DriverCall.init 1, DriverCall.fini].getLast? =
         some DriverCall.fini) :=
  ⟨by decide,
   drop_fini_once ⟨256, 256⟩ 1 [] [DriverCall.init 1, DriverCall.fini]
     (by decide)⟩

/-- C3: for every in-range stage index and well-formed instance, `texenv`
returns a stage object such that a repeated call returns the identical
object with the state unchanged and without re-running initialization;
initialization runs exactly on the first access of an uninitialized cell
(producing `TexEnv.new stage`), and an already-initialized cell's object is
returned as-is (never recreated). -/
theorem texenv_identity_stable (inst : Instance) (stage : Stage)
    (hwf : inst.texenvs.length = TEXENV_COUNT)
    (hs : stage.val < TEXENV_COUNT) :
    ∃ inst1 te ran,
      inst.texenv stage = some (inst1, te, ran) ∧
      inst1.texenv stage = some (inst1, te, false) ∧
      (inst.texenvs[stage.val]? = some none →
        ran = true ∧ te = TexEnv.new stage) ∧
      ∀ te0, inst.texenvs[stage.val]? = some (some te0) →
        ran = false ∧ te = te0 := by
  have hlt : stage.val < inst.texenvs.length := by rw [hwf]; exact hs
  obtain ⟨cell, hcell⟩ : ∃ c, inst.texenvs[stage.val]? = some c :=
    ⟨_, List.getElem?_eq_getElem hlt⟩
  cases cell with
  | none =>
    refine ⟨{ texenvs := inst.texenvs.set stage.val
                (some (TexEnv.new stage)) },
      TexEnv.new stage, true, ?_, ?_, ?_, ?_⟩
    · simp [Instance.texenv, hcell]
    · simp [Instance.texenv, List.getElem?_set, hlt]
    · intro _; exact ⟨rfl, rfl⟩
    · intro te0 h0; rw [hcell] at h0; cases h0
  | some te0 =>
    refine ⟨inst, te0, false, ?_, ?_, ?_, ?_⟩
    · simp [Instance.texenv, hcell]
    · simp [Instance.texenv, hcell]
    · intro h0; rw [hcell] at h0; cases h0
    · intro te1 h1
      rw [hcell] at h1
      injection h1 with h1
      injection h1 with h1
      exact ⟨rfl, h1⟩

/-- C3 witness: on the fresh instance, stage 0's cell is uninitialized, the
first access initializes it to the neutral configuration, and the repeated
access returns the identical object without re-initializing. -/
theorem texenv_identity_stable_witness :
    (freshInstance.texenvs.length = TEXENV_COUNT ∧
      (Stage.mk 0).val < TEXENV_COUNT) ∧
    ∃ inst1 te ran,
      freshInstance.texenv ⟨0⟩ = some (inst1, te, ran) ∧
      inst1.texenv ⟨0⟩ = some (inst1, te, false) ∧
      (freshInstance.texenvs[(Stage.mk 0).val]? = some none →
        ran = true ∧ te = TexEnv.new ⟨0⟩) ∧
      ∀ te0, freshInstance.texenvs[(Stage.mk 0).val]? = some (some te0) →
        ran = false ∧ te = te0 :=
  ⟨⟨by decide, by decide⟩,
   texenv_identity_stable freshInstance ⟨0⟩ (by decide) (by decide)⟩

/-- C7: stage-identifier construction rejects every index at or above the
stage count with a recoverable rejection (`none`) before any cache access
can occur, and for every identifier it does construct, the index is in
range and the `texenv` cache access on any well-formed instance is in
bounds and never fails (panics). -/
theorem stage_range_validation (i : Nat) :
    (TEXENV_COUNT ≤ i → Stage.new i = none) ∧
    ∀ s, Stage.new i = some s →
      s.val < TEXENV_COUNT ∧
      ∀ inst : Instance, inst.texenvs.length = TEXENV_COUNT →
        (inst.texenv s).isSome = true := by
  constructor
  · intro h
    simp [Stage.new, Nat.not_lt.mpr h]
  · intro s hs
    have hi : i < TEXENV_COUNT := by
      by_contra hge
      simp [Stage.new, hge] at hs
    have hsv : s.val = i := by
      simp only [Stage.new, if_pos hi, Option.some.injEq] at hs
      rw [← hs]
    refine ⟨by rw [hsv]; exact hi, ?_⟩
    intro inst hwf
    have hlt : s.val < inst.texenvs.length := by rw [hwf, hsv]; exact hi
    obtain ⟨cell, hcell⟩ : ∃ c, inst.texenvs[s.val]? = some c :=
      ⟨_, List.getElem?_eq_getElem hlt⟩
    cases cell <;> simp [Instance.texenv, hcell]

/-- C7 witness: index 9 is rejected at construction; index 2 constructs an
identifier whose cache access on the fresh instance succeeds. -/
theorem stage_range_validation_witness :
    Stage.new 9 = none ∧ (freshInstance.texenv ⟨2⟩).isSome = true :=
  ⟨(stage_range_validation 9).1 (by decide),
   ((stage_range_validation 2).2 ⟨2⟩ (by decide)).2 freshInstance
     (by decide)⟩

end Citro3d
